import Mathlib

/-!
Verification of the prismic.io JavaScript kit (`src/api.js`) against its
natural-language specification.

The JavaScript source is shallowly embedded: JS objects used as string-keyed
maps become association lists (`List (String × _)`), JS `null`/`undefined`
become `Option.none`, thrown exceptions become `Except.error`, and the
asynchronous `getOrSet` producer protocol is split into a synchronous start
step (cache lookup plus in-flight marking) and a completion step (the
continuation handed to the producer).  `Date.now()` is threaded explicitly as
a `now : Nat` parameter (milliseconds since epoch).
-/

namespace PrismicKit

/-- A cache entry, api.js 1152-1157: `{ data: value, expiredIn: timestamp }`.
`data` is an `Option` because the `getOrSet` continuation stores whatever the
producer delivered, which is JS `null` when the producer failed.
`expiredIn = 0` means "never expires". -/
structure CacheEntry (V : Type) where
  data : Option V
  expiredIn : Nat
deriving DecidableEq

/-- JS assignment `obj[key] = v` on an object used as a string-keyed map. -/
def setAssoc {β : Type} (key : String) (v : β) (l : List (String × β)) :
    List (String × β) :=
  (key, v) :: l.filter (fun p => p.1 != key)

/-- The `ApiCache` state, api.js 1138-1141: the `cache` object and the
`states` object; `states` holds exactly the keys currently mapped to the
string `"progress"`. -/
structure ApiCache (V : Type) where
  cache : List (String × CacheEntry V)
  states : List String
deriving DecidableEq

/-- api.js 1174-1181: `entry.expiredIn !== 0 && entry.expiredIn < Date.now()`,
and `false` when there is no entry. -/
def ApiCache.isExpired {V : Type} (c : ApiCache V) (now : Nat) (key : String) : Bool :=
  match c.cache.lookup key with
  | some entry => entry.expiredIn != 0 && decide (entry.expiredIn < now)
  | none => false

/-- api.js 1183-1185: `this.states[key] === "progress"`. -/
def ApiCache.isInProgress {V : Type} (c : ApiCache V) (key : String) : Bool :=
  c.states.contains key

/-- api.js 1145-1150: return `maybeEntry.data` when an entry exists and it is
not expired, or expired but a fetch for the key is in progress; `null`
otherwise. -/
def ApiCache.get {V : Type} (c : ApiCache V) (now : Nat) (key : String) : Option V :=
  match c.cache.lookup key with
  | some maybeEntry =>
      if !(c.isExpired now key) || (c.isExpired now key && c.isInProgress key)
      then maybeEntry.data
      else none
  | none => none

/-- api.js 1152-1157: `expiredIn: ttl ? (Date.now() + (ttl * 1000)) : 0`. -/
def ApiCache.set {V : Type} (c : ApiCache V) (now : Nat) (key : String)
    (value : Option V) (ttl : Nat) : ApiCache V :=
  { c with cache :=
      setAssoc key ⟨value, if ttl != 0 then now + ttl * 1000 else 0⟩ c.cache }

/-- Outcome of the synchronous part of `getOrSet`: either the completion
callback fires immediately with a cached value (`hit`), or the producer is
invoked (`fetch`). -/
inductive StartResult (V : Type) where
  | hit (v : V)
  | fetch
deriving DecidableEq

/-- Synchronous part of api.js 1159-1172: `var found = this.get(key);
if(!found) mark the key in progress and invoke fvalue(continuation); else
{ done(null, found); }`.  A `fetch` result means the producer was invoked. -/
def ApiCache.getOrSetStart {V : Type} (c : ApiCache V) (now : Nat) (key : String) :
    ApiCache V × StartResult V :=
  match c.get now key with
  | some found => (c, .hit found)
  | none =>
      ({ c with states := if c.states.contains key then c.states else key :: c.states },
       .fetch)

/-- The continuation handed to the producer, api.js 1164-1168: store the
produced value with its ttl, delete the in-flight marker, and call `done`
with the producer's `(error, value)` pair unchanged.  The pair returned in
the second component is exactly what `done` receives. -/
def ApiCache.getOrSetComplete {V E : Type} (c : ApiCache V) (now : Nat) (key : String)
    (ttl : Nat) (error : Option E) (value : Option V) :
    ApiCache V × (Option E × Option V) :=
  let c1 := c.set now key value ttl
  ({ c1 with states := c1.states.filter (fun k => k != key) }, (error, value))

/-- A raw ref as found in the bootstrap JSON (`isMasterRef` key). -/
structure RawRef where
  ref : String
  label : String
  isMasterRef : Bool
  scheduledAt : Option Nat
  id : String
deriving DecidableEq

/-- A parsed ref, api.js 1106-1133. -/
structure Ref where
  ref : String
  label : String
  isMaster : Bool
  scheduledAt : Option Nat
  id : String
deriving DecidableEq

/-- A form field descriptor: `{ type, multiple, default }`. -/
structure FieldSpec where
  type : String
  multiple : Bool
  default : Option String
deriving DecidableEq

/-- A raw form as found in the bootstrap JSON. -/
structure RawForm where
  name : String
  fields : List (String × FieldSpec)
  form_method : String
  rel : Option String
  enctype : String
  action : String
deriving DecidableEq

/-- A parsed form, api.js 422-431. -/
structure Form where
  name : String
  fields : List (String × FieldSpec)
  form_method : String
  rel : Option String
  enctype : String
  action : String
deriving DecidableEq

/-- The bootstrap JSON consumed by `parse`. -/
structure ApiData where
  refs : List RawRef
  forms : List (String × RawForm)
  bookmarks : List (String × String)
  types : List (String × String)
  tags : List String
  oauth_initiate : Option String
  oauth_token : Option String
deriving DecidableEq

/-- The parsed descriptor returned by `parse`, api.js 300-309. -/
structure ApiDescriptor where
  bookmarks : List (String × String)
  refs : List Ref
  forms : List (String × Form)
  master : Ref
  types : List (String × String)
  tags : List String
  oauthInitiate : Option String
  oauthToken : Option String
deriving DecidableEq

/-- The ref-to-Ref translation applied by `parse`, api.js 278-286. -/
def mkRef (r : RawRef) : Ref :=
  Ref.mk r.ref r.label r.isMasterRef r.scheduledAt r.id

/-- api.js 244-311: parse the bootstrap JSON.  When an access token is held
(JS truthiness: a non-empty string), every form gains a synthetic
`access_token` field with the token as default.  `master` is the list of refs
with `isMaster === true`; an empty list throws the string `"No master ref."`,
otherwise the descriptor's master is `master[0]`. -/
def parse (accessToken : Option String) (data : ApiData) : Except String ApiDescriptor :=
  let forms := data.forms.map (fun p =>
    let f := p.2
    let fields :=
      match accessToken with
      | some tok =>
          if tok != "" then setAssoc "access_token" ⟨"string", false, some tok⟩ f.fields
          else f.fields
      | none => f.fields
    (p.1, Form.mk f.name fields f.form_method f.rel f.enctype f.action))
  let refs := data.refs.map mkRef
  let master := refs.filter (fun r => r.isMaster == true)
  match master with
  | [] => Except.error "No master ref."
  | m :: _ =>
      Except.ok ⟨data.bookmarks, refs, forms, m, data.types, data.tags,
        data.oauth_initiate, data.oauth_token⟩

/-- api.js 357-359: `master()` returns `this.data.master.ref`. -/
def apiMaster (d : ApiDescriptor) : String :=
  d.master.ref

/-- api.js 214-222: `fetchApi` forwards the request handler's result to the
`getOrSet` continuation: on error `cb(error, null)`, on success
`cb(null, self.parse(data))`.  When `parse` throws, the continuation is never
reached (`none`). -/
def fetchApiStep (accessToken : Option String) (result : Except String ApiData) :
    Option (Option String × Option ApiDescriptor) :=
  match result with
  | Except.error e => some (some e, none)
  | Except.ok data =>
      match parse accessToken data with
      | Except.ok api => some (none, some api)
      | Except.error _ => none

/-- api.js 210: `cacheKey = this.url + (this.accessToken ? hash + this.accessToken : empty)`. -/
def apiCacheKey (url : String) (accessToken : Option String) : String :=
  url ++ (match accessToken with
          | some tok => if tok != "" then "#" ++ tok else ""
          | none => "")

/-- The fixed ttl (in seconds) passed by `Api.get` to `getOrSet`, api.js 213. -/
def apiGetTtl : Nat := 5

/-- Synchronous part of api.js 208-234: `Api.get` calls
`apiCache.getOrSet(cacheKey, 5, fetchApi, done)`. -/
def apiGetStart (c : ApiCache ApiDescriptor) (now : Nat) (url : String)
    (accessToken : Option String) : ApiCache ApiDescriptor × StartResult ApiDescriptor :=
  c.getOrSetStart now (apiCacheKey url accessToken)

/-- Completion of `Api.get`: the `getOrSet` continuation runs with the fixed
ttl of 5 seconds.  `maxAge` stands for a max-age cache directive carried by
the response metadata (the `xhr` argument threaded through the callbacks);
api.js never consults it when storing into the `ApiCache`. -/
def apiGetComplete (c : ApiCache ApiDescriptor) (now : Nat) (url : String)
    (accessToken : Option String) (maxAge : Option Nat)
    (error : Option String) (value : Option ApiDescriptor) :
    ApiCache ApiDescriptor × (Option String × Option ApiDescriptor) :=
  c.getOrSetComplete now (apiCacheKey url accessToken) apiGetTtl error value

/-- A JS value passed to `SearchForm.set`: the kit passes strings and numbers. -/
inductive Value where
  | str (s : String)
  | num (n : Int)
deriving DecidableEq

/-- JS truthiness of a `Value`. -/
def Value.truthy : Value → Bool
  | .str s => s != ""
  | .num n => n != 0

/-- What `SearchForm.data[field]` can hold after `set` (api.js 463-478):
`null` (from `value && [value]` with `value = null`), a falsy scalar (from
`value && [value]` with a falsy non-null value such as `0`), or an array of
accumulated values. -/
inductive DataVal where
  | nullv
  | scalar (v : Value)
  | arr (vs : List Value)
deriving DecidableEq

/-- JS truthiness of a stored `DataVal`: `null` and falsy scalars are falsy,
arrays (even empty ones) are truthy. -/
def DataVal.truthy : DataVal → Bool
  | .nullv => false
  | .scalar v => v.truthy
  | .arr _ => true

/-- The list view of a stored `DataVal`.  In reachable states a truthy
`data[field]` is always an array (`set` only stores non-arrays that are
falsy), so coercing the remaining cases to `[]` is faithful. -/
def DataVal.asValues : DataVal → List Value
  | .arr vs => vs
  | _ => []

/-- A `SearchForm`, api.js 439-449: the bound form and the mutable `data`
accumulator. -/
structure SearchForm where
  form : Form
  data : List (String × DataVal)
deriving DecidableEq

/-- JS `var values = this.data[field] || []` (api.js 466). -/
def SearchForm.storedValues (sf : SearchForm) (field : String) : List Value :=
  match sf.data.lookup field with
  | some dv => if dv.truthy then dv.asValues else []
  | none => []

/-- api.js 444-448: the constructor pre-populates every field whose
descriptor carries a truthy `default` with `[default]`. -/
def SearchForm.init (form : Form) : SearchForm :=
  { form := form,
    data := form.fields.foldl
      (fun d p =>
        match p.2.default with
        | some dflt =>
            if dflt != "" then setAssoc p.1 (DataVal.arr [Value.str dflt]) d else d
        | none => d)
      [] }

/-- api.js 463-478: `set(field, value)`.  Unknown fields throw
`"Unknown field " + field`.  an empty string and `undefined` are normalized to `null`
("we must compare value to null because we want to allow 0").  On a
`multiple` field a truthy value is pushed (`if (value) values.push(value)`);
on a non-multiple field `values = value && [value]`. -/
def SearchForm.set (sf : SearchForm) (field : String) (value : Option Value) :
    Except String SearchForm :=
  match sf.form.fields.lookup field with
  | none => Except.error ("Unknown field " ++ field)
  | some fieldDesc =>
      let values := sf.storedValues field
      let value : Option Value :=
        match value with
        | none => none
        | some (Value.str s) => if s == "" then none else some (Value.str s)
        | some (Value.num n) => some (Value.num n)
      if fieldDesc.multiple then
        let values :=
          match value with
          | some v => if v.truthy then values ++ [v] else values
          | none => values
        Except.ok { sf with data := setAssoc field (DataVal.arr values) sf.data }
      else
        let newVal : DataVal :=
          match value with
          | none => DataVal.nullv
          | some v => if v.truthy then DataVal.arr [v] else DataVal.scalar v
        Except.ok { sf with data := setAssoc field newVal sf.data }

/-- An argument of a predicate, api.js 509-522.  A `date` carries the result
of `getTime()`, milliseconds since epoch, because that is all the compiler
reads of a `Date`. -/
inductive QueryArg where
  | str (s : String)
  | arrOf (xs : List String)
  | date (millis : Int)
  | num (n : Int)
  | bool (b : Bool)
deriving DecidableEq

/-- A predicate `[operator, path, ...args]` (a heterogeneous JS array). -/
structure Predicate where
  op : String
  path : String
  args : List QueryArg
deriving DecidableEq

/-- JS `s.indexOf(pre) === 0` (api.js 507), i.e. a prefix test, embedded on
the character lists so that it evaluates inside the kernel. -/
def strIndexOfZero (pre s : String) : Bool :=
  pre.data.isPrefixOf s.data

/-- api.js 510-522: per-argument literal encoding.  `typeof p` being string
gives a double-quoted string; `Array.isArray(p)` a bracketed comma-joined
list of quoted elements; `p instanceof Date` the `getTime()` integer; the
rest is emitted as-is (JS number/boolean `toString`). -/
def encodeQueryArg : QueryArg → String
  | .str p => "\"" ++ p ++ "\""
  | .arrOf p => "[" ++ String.intercalate "," (p.map (fun e => "\"" ++ e ++ "\"")) ++ "]"
  | .date p => toString p
  | .num p => toString p
  | .bool p => cond p "true" "false"

/-- api.js 500-527, the non-string branch of `SearchForm.query`: each
predicate becomes `"[:d = " + op + "(" + firstArg + ", " + args joined with commas +
")]"` where the path is left unquoted when it starts with `my.` or
`document.`; the per-predicate strings are concatenated and wrapped once in
outer brackets. -/
def compilePredicates (predicates : List Predicate) : String :=
  let stringQueries := predicates.map (fun predicate =>
    let firstArg :=
      if strIndexOfZero "my." predicate.path || strIndexOfZero "document." predicate.path
      then predicate.path
      else "\"" ++ predicate.path ++ "\""
    "[:d = " ++ predicate.op ++ "(" ++ firstArg ++ ", " ++
      String.intercalate "," (predicate.args.map encodeQueryArg) ++ ")]")
  "[" ++ String.join stringQueries ++ "]"

/-- Specification-side path rule, written from the spec's words: a path
starting with `my.` or `document.` is emitted unquoted, otherwise it is
quoted as a string literal. -/
def specPathLiteral (path : String) : String :=
  if strIndexOfZero "my." path || strIndexOfZero "document." path then path
  else "\"" ++ path ++ "\""

/-- Specification-side argument rule, written from the spec's words: string
becomes a double-quoted string; array a bracketed comma-joined list of quoted
elements; a temporal value its milliseconds-since-epoch integer; anything
else (numbers, booleans) is emitted as-is. -/
def specArgLiteral : QueryArg → String
  | .str s => "\"" ++ s ++ "\""
  | .arrOf xs => "[" ++ String.intercalate "," (xs.map (fun e => "\"" ++ e ++ "\"")) ++ "]"
  | .date millis => toString millis
  | .num n => toString n
  | .bool b => cond b "true" "false"

/-- Specification-side compiler, written from the spec's words: each
predicate compiles to `[:d = operator(path, arg1,arg2,...)]` and the
predicate strings are concatenated and wrapped once as `[ ... ]`. -/
def specCompile (predicates : List Predicate) : String :=
  "[" ++ String.join (predicates.map (fun p =>
    "[:d = " ++ p.op ++ "(" ++ specPathLiteral p.path ++ ", " ++
      String.intercalate "," (p.args.map specArgLiteral) ++ ")]")) ++ "]"

/-- A rich-text span annotation (`{ start, end, type }` in the JSON; `end` is
a Lean keyword, so the field is named `stop`). -/
structure Span where
  start : Nat
  stop : Nat
  type : String
deriving DecidableEq

/-- A rich-text block: a type, an optional text payload and its spans. -/
structure Block where
  type : String
  text : Option String
  spans : List Span
deriving DecidableEq

/-- Modelled from the spec: the span normalization lives in the
StructuredText constructor of `Global.Prismic.Fragments` (fragments.js),
which is not under src — api.js only calls into it.  Per the spec, any span
whose declared start offset is not strictly less than its end offset is
dropped during document parsing. -/
def parseBlock (b : Block) : Block :=
  { b with spans := b.spans.filter (fun s => decide (s.start < s.stop)) }

/-- Modelled from the spec: the fragment classes and `initField` live in
`Global.Prismic.Fragments` (fragments.js), which is not under src; only
their callers in api.js are.  Per the spec, a Fragment is a polymorphic
value keyed by a type discriminator; it is modelled as a closed tagged union
carrying the payloads the api.js accessors consume. -/
inductive Fragment where
  | structuredText (blocks : List Block)
  | text (value : String)
  | number (value : Int)
  | select (value : String)
  | color (value : String)
  | date (value : Nat)
  | timestamp (value : Nat)
  | image (url : String)
  | geoPoint (latitude longitude : Int)
  | group
  | webLink (url : String)
  | documentLink (id : String)
  | imageLink (url : String)
deriving DecidableEq

/-- The `fragments` map of a document stores either a single fragment or an
array of fragments (api.js 1086-1097); the stored fragments are the typed
fragments `initField` would construct (see `Fragment`). -/
inductive FragmentValue where
  | single (f : Fragment)
  | multiple (fs : List Fragment)
deriving DecidableEq

/-- A document, api.js 689-727. -/
structure Doc where
  id : String
  type : String
  href : String
  tags : List String
  slugs : List String
  fragments : List (String × FragmentValue)
deriving DecidableEq

/-- api.js 1086-1097: `_getFragments` normalizes the entry to an array. -/
def Doc.getFragments (d : Doc) (name : String) : List Fragment :=
  match d.fragments.lookup name with
  | none => []
  | some (FragmentValue.single f) => [f]
  | some (FragmentValue.multiple fs) => fs

/-- api.js 738-741: `get` returns the first fragment, or `null`. -/
def Doc.get (d : Doc) (name : String) : Option Fragment :=
  (d.getFragments name).head?

/-- api.js 953-960: `getNumber` returns `fragment.value` for a Number
fragment and `null` otherwise. -/
def Doc.getNumber (d : Doc) (name : String) : Option Int :=
  match d.get name with
  | some (Fragment.number v) => some v
  | _ => none

/-- api.js 969-976: `getColor`. -/
def Doc.getColor (d : Doc) (name : String) : Option String :=
  match d.get name with
  | some (Fragment.color v) => some v
  | _ => none

/-- api.js 844-850: `getDate` (falls through to `undefined` on mismatch). -/
def Doc.getDate (d : Doc) (name : String) : Option Nat :=
  match d.get name with
  | some (Fragment.date v) => some v
  | _ => none

/-- api.js 919-926: `getStructuredText`. -/
def Doc.getStructuredText (d : Doc) (name : String) : Option Fragment :=
  match d.get name with
  | some (Fragment.structuredText bs) => some (Fragment.structuredText bs)
  | _ => none

/-- api.js 935-944: `getLink` accepts WebLink, DocumentLink and ImageLink. -/
def Doc.getLink (d : Doc) (name : String) : Option Fragment :=
  match d.get name with
  | some (Fragment.webLink u) => some (Fragment.webLink u)
  | some (Fragment.documentLink i) => some (Fragment.documentLink i)
  | some (Fragment.imageLink u) => some (Fragment.imageLink u)
  | _ => none

/-- api.js 985-992: `getGeoPoint`. -/
def Doc.getGeoPoint (d : Doc) (name : String) : Option Fragment :=
  match d.get name with
  | some (Fragment.geoPoint la lo) => some (Fragment.geoPoint la lo)
  | _ => none

/-- api.js 1002-1009: `getGroup`. -/
def Doc.getGroup (d : Doc) (name : String) : Option Fragment :=
  match d.get name with
  | some Fragment.group => some Fragment.group
  | _ => none

/-- api.js 763-773: `getImage` returns an Image as-is, returns a
StructuredText as-is too (the "find first image" refinement was never
written), and `null` for everything else. -/
def Doc.getImage (d : Doc) (name : String) : Option Fragment :=
  match d.get name with
  | some (Fragment.image u) => some (Fragment.image u)
  | some (Fragment.structuredText bs) => some (Fragment.structuredText bs)
  | _ => none

/-- api.js 876-910: `getText` handles StructuredText (joining the truthy
block texts with a newline, each with the `after` suffix), and Text, Number,
Select and Color fragments with a truthy `value`; everything else falls
through to `undefined`.  `after ? after : empty` is the suffix. -/
def Doc.getText (d : Doc) (name : String) (after : Option String) : Option String :=
  let afterStr := match after with
    | some a => if a != "" then a else ""
    | none => ""
  match d.get name with
  | some (Fragment.structuredText blocks) =>
      some (String.intercalate "\n" (blocks.map (fun block =>
        match block.text with
        | some t => if t != "" then t ++ afterStr else ""
        | none => "")))
  | some (Fragment.text v) => if v != "" then some (v ++ afterStr) else none
  | some (Fragment.number v) => if v != 0 then some (toString v ++ afterStr) else none
  | some (Fragment.select v) => if v != "" then some (v ++ afterStr) else none
  | some (Fragment.color v) => if v != "" then some (v ++ afterStr) else none
  | _ => none

/-- The JS values relevant to `getBoolean`'s dynamic behaviour. -/
inductive JsVal where
  | undefined
  | str (s : String)
  | num (n : Int)
  | bool (b : Bool)
  | obj
deriving DecidableEq

/-- The JS `.value` property of each fragment object: the string-valued
fragments carry strings, Number carries a number, Date and Timestamp hold a
`Date` object (`obj`), and the remaining fragment classes have no `value`
property (`undefined`). -/
def Fragment.jsValue : Fragment → JsVal
  | .text v => .str v
  | .select v => .str v
  | .color v => .str v
  | .number n => .num n
  | .date _ => .obj
  | .timestamp _ => .obj
  | _ => .undefined

/-- JS truthiness of a `JsVal`. -/
def JsVal.truthy : JsVal → Bool
  | .undefined => false
  | .str s => s != ""
  | .num n => n != 0
  | .bool b => b
  | .obj => true

/-- JS `x.toLowerCase()`: defined on strings, a TypeError otherwise. -/
def JsVal.toLowerCase : JsVal → Except String String
  | .str s => Except.ok s.toLower
  | _ => Except.error "TypeError"

/-- api.js 861-864: `getBoolean` reads `fragment.value` with no discriminator
check and evaluates `fragment.value && (fragment.value.toLowerCase() matching yes, on or true)`.  Reading `.value` of a `null` fragment, or calling
`.toLowerCase()` on a truthy non-string value, throws a TypeError; a falsy
value is returned as-is by `&&`. -/
def Doc.getBoolean (d : Doc) (name : String) : Except String JsVal :=
  match d.get name with
  | none => Except.error "TypeError"
  | some fragment =>
      let v := fragment.jsValue
      if v.truthy then
        match v.toLowerCase with
        | Except.ok s => Except.ok (JsVal.bool (s == "yes" || s == "on" || s == "true"))
        | Except.error e => Except.error e
      else Except.ok v

/-- Classifier for the fragment kinds `getText` handles. -/
def Fragment.textKind : Fragment → Bool
  | .structuredText _ => true
  | .text _ => true
  | .number _ => true
  | .select _ => true
  | .color _ => true
  | _ => false

/-- Discriminator classifier: is the fragment a Number? -/
def Fragment.isNumber : Fragment → Bool
  | .number _ => true
  | _ => false

/-- Discriminator classifier: is the fragment a Color? -/
def Fragment.isColor : Fragment → Bool
  | .color _ => true
  | _ => false

/-- Discriminator classifier: is the fragment a Date? -/
def Fragment.isDate : Fragment → Bool
  | .date _ => true
  | _ => false

/-- Discriminator classifier: is the fragment a StructuredText? -/
def Fragment.isStructuredText : Fragment → Bool
  | .structuredText _ => true
  | _ => false

/-- Discriminator classifier: is the fragment one of the three link kinds? -/
def Fragment.isLink : Fragment → Bool
  | .webLink _ => true
  | .documentLink _ => true
  | .imageLink _ => true
  | _ => false

/-- Discriminator classifier: is the fragment a GeoPoint? -/
def Fragment.isGeoPoint : Fragment → Bool
  | .geoPoint _ _ => true
  | _ => false

/-- Discriminator classifier: is the fragment a Group? -/
def Fragment.isGroup : Fragment → Bool
  | .group => true
  | _ => false

/-- Discriminator classifier: the kinds `getImage` passes through (an Image,
or a StructuredText per the legacy branch). -/
def Fragment.isImageOrSt : Fragment → Bool
  | .image _ => true
  | .structuredText _ => true
  | _ => false

/-- Is the JS value a string? -/
def JsVal.isString : JsVal → Bool
  | .str _ => true
  | _ => false

/-- Decidable equality on `Except`, used to evaluate the embedding on
concrete inputs. -/
instance {ε α : Type} [DecidableEq ε] [DecidableEq α] : DecidableEq (Except ε α) :=
  fun x y =>
    match x, y with
    | Except.ok a, Except.ok b =>
        if h : a = b then Decidable.isTrue (by rw [h])
        else Decidable.isFalse (fun hh => h (Except.ok.inj hh))
    | Except.error a, Except.error b =>
        if h : a = b then Decidable.isTrue (by rw [h])
        else Decidable.isFalse (fun hh => h (Except.error.inj hh))
    | Except.ok _, Except.error _ => Decidable.isFalse (fun hh => Except.noConfusion hh)
    | Except.error _, Except.ok _ => Decidable.isFalse (fun hh => Except.noConfusion hh)

/-! ## Concrete instances used as test inputs -/

/-- A descriptor with two refs marked master. -/
def twoMasterData : ApiData :=
  { refs := [RawRef.mk "aaa" "Master" true none "master-id",
             RawRef.mk "bbb" "Another master" true none "second-id"],
    forms := [], bookmarks := [], types := [], tags := [],
    oauth_initiate := none, oauth_token := none }

/-- A descriptor with exactly one ref marked master. -/
def oneMasterData : ApiData :=
  { refs := [RawRef.mk "xyz" "Master" true none "m1"],
    forms := [], bookmarks := [], types := [], tags := [],
    oauth_initiate := none, oauth_token := none }

/-- The descriptor `parse` produces from `oneMasterData`. -/
def oneMasterDescriptor : ApiDescriptor :=
  { bookmarks := [], refs := [Ref.mk "xyz" "Master" true none "m1"], forms := [],
    master := Ref.mk "xyz" "Master" true none "m1", types := [], tags := [],
    oauthInitiate := none, oauthToken := none }

/-- A small parsed descriptor used as a cached value. -/
def demoDescriptor : ApiDescriptor :=
  { bookmarks := [], refs := [Ref.mk "r" "Master" true none "m"], forms := [],
    master := Ref.mk "r" "Master" true none "m", types := [], tags := [],
    oauthInitiate := none, oauthToken := none }

/-- The default `everything` form: `ref` and `q` only. -/
def everythingForm : Form :=
  { name := "everything",
    fields := [("ref", FieldSpec.mk "String" false none),
               ("q", FieldSpec.mk "String" true none)],
    form_method := "GET", rel := none, enctype := "application/x-www-form-urlencoded",
    action := "http://x/api/documents/search" }

/-- A form with one field declared `multiple`. -/
def multipleFieldForm : Form :=
  { name := "f",
    fields := [("tags", FieldSpec.mk "String" true none)],
    form_method := "GET", rel := none, enctype := "application/x-www-form-urlencoded",
    action := "http://x/api/documents/search" }

/-- A document whose only fragment is a Number. -/
def numberDoc : Doc :=
  { id := "U1", type := "post", href := "", tags := [], slugs := ["post"],
    fragments := [("post.n", FragmentValue.single (Fragment.number 5))] }

/-- A document whose only fragment is a Text with value `"Hello"`. -/
def helloDoc : Doc :=
  { id := "U2", type := "post", href := "", tags := [], slugs := ["post"],
    fragments := [("post.title", FragmentValue.single (Fragment.text "Hello"))] }

/-- A document whose only fragment is an Image. -/
def imageDoc : Doc :=
  { id := "U3", type := "post", href := "", tags := [], slugs := ["post"],
    fragments := [("post.photo", FragmentValue.single (Fragment.image "http://img"))] }

/-- The descriptor `parse` produces from `twoMasterData`: parsing SUCCEEDS
and picks the first master. -/
def twoMasterDescriptor : ApiDescriptor :=
  { bookmarks := [],
    refs := [Ref.mk "aaa" "Master" true none "master-id",
             Ref.mk "bbb" "Another master" true none "second-id"],
    forms := [],
    master := Ref.mk "aaa" "Master" true none "master-id",
    types := [], tags := [], oauthInitiate := none, oauthToken := none }

/-! ## Helper lemmas -/

theorem lookup_setAssoc_self {β : Type} (key : String) (v : β) (l : List (String × β)) :
    (setAssoc key v l).lookup key = some v := by
  simp [setAssoc, List.lookup]

theorem contains_filter_ne (l : List String) (key : String) :
    (l.filter (fun k => k != key)).contains key = false := by
  cases hc : (l.filter (fun k => k != key)).contains key with
  | false => rfl
  | true =>
      exfalso
      have hmem : key ∈ l.filter (fun k => k != key) := List.mem_of_elem_eq_true hc
      have h2 := (List.mem_filter.mp hmem).2
      simp at h2

theorem cache_states_set {V : Type} (c : ApiCache V) (now : Nat) (key : String)
    (value : Option V) (ttl : Nat) : (c.set now key value ttl).states = c.states := rfl

/-! ## C1: single-flight -/

/-- C1 counterexample: the single-flight claim is false on a key with no
cache entry.  Two `getOrSet` calls for the same key, the second issued before
the first producer completes, BOTH invoke the producer: the in-flight marker
set by the first call is only consulted by `get` when an (expired) cache
entry exists, and a cold key has none, so the second call also sees
`found = null` and fires a second fetch. -/
theorem getOrSet_cold_key_double_fetch :
    ((ApiCache.mk ([] : List (String × CacheEntry Nat)) []).getOrSetStart 1000 "k").2 =
      StartResult.fetch ∧
    ((((ApiCache.mk ([] : List (String × CacheEntry Nat)) []).getOrSetStart 1000 "k").1).getOrSetStart
        1000 "k").2 = StartResult.fetch := by
  decide

/-- C1 (amended): single-flight does hold whenever the cache holds an entry
for the key (even an expired one).  If an entry with a (non-null) value is
present and a producer for the key is in flight, a concurrent `getOrSet`
invokes no second producer: it immediately completes with the cached value. -/
theorem getOrSet_inflight_with_entry_single_flight {V : Type} (c : ApiCache V)
    (now : Nat) (key : String) (e : CacheEntry V) (v : V)
    (hl : c.cache.lookup key = some e) (hd : e.data = some v)
    (hp : c.isInProgress key = true) :
    c.getOrSetStart now key = (c, StartResult.hit v) := by
  have hcond : (!(c.isExpired now key) || (c.isExpired now key && c.isInProgress key)) = true := by
    cases hex : c.isExpired now key <;> simp [hp]
  have hget : c.get now key = some v := by
    unfold ApiCache.get
    rw [hl]
    simp [hcond, hd]
  unfold ApiCache.getOrSetStart
  rw [hget]

theorem getOrSet_inflight_witness :
    (ApiCache.mk [("k", CacheEntry.mk (some (5 : Nat)) 1)] ["k"]).getOrSetStart 1000 "k" =
      (ApiCache.mk [("k", CacheEntry.mk (some (5 : Nat)) 1)] ["k"], StartResult.hit 5) :=
  getOrSet_inflight_with_entry_single_flight _ 1000 "k" (CacheEntry.mk (some 5) 1) 5
    (by decide) rfl (by decide)

/-! ## C2: producer errors are not swallowed -/

/-- C2: when the producer completes with an error, the error reaches the
completion callback unmodified together with a `null` value, the cache holds
no value for the key afterwards (at any later time), the in-flight marker is
cleared, and a subsequent `getOrSet` for the key invokes the producer again,
so a retry is possible. -/
theorem producer_error_not_cached_and_retried :
    ∀ (c : ApiCache ApiDescriptor) (now now2 : Nat) (url : String)
      (tok : Option String) (maxAge : Option Nat) (e : String),
      fetchApiStep tok (Except.error e) = some (some e, none) ∧
      (apiGetComplete c now url tok maxAge (some e) none).2 = (some e, none) ∧
      (apiGetComplete c now url tok maxAge (some e) none).1.get now2 (apiCacheKey url tok) = none ∧
      (apiGetComplete c now url tok maxAge (some e) none).1.isInProgress (apiCacheKey url tok) = false ∧
      ((apiGetComplete c now url tok maxAge (some e) none).1.getOrSetStart now2
          (apiCacheKey url tok)).2 = StartResult.fetch := by
  intro c now now2 url tok maxAge e
  have hget : (apiGetComplete c now url tok maxAge (some e) none).1.get now2
      (apiCacheKey url tok) = none := by
    unfold apiGetComplete ApiCache.getOrSetComplete ApiCache.get ApiCache.set
    simp [lookup_setAssoc_self]
  refine ⟨rfl, rfl, hget, ?_, ?_⟩
  · unfold apiGetComplete ApiCache.getOrSetComplete ApiCache.isInProgress
    simp [contains_filter_ne]
  · unfold ApiCache.getOrSetStart
    rw [hget]

/-! ## C5: cache get / expiry semantics -/

/-- C5: `get` returns a stored value exactly when an entry for the key is
present AND (the entry is not expired OR a fetch for the key is in progress),
so a stale entry is still served while a refresh is underway; an entry is
expired exactly when `expiredIn ≠ 0 ∧ expiredIn < now`; and an entry stored
with ttl 0 never expires. -/
theorem cache_get_characterization {V : Type} (c : ApiCache V) (now : Nat) (key : String) :
    (∀ v : V, c.get now key = some v ↔
      ∃ e, c.cache.lookup key = some e ∧ e.data = some v ∧
        (c.isExpired now key = false ∨ c.isInProgress key = true)) ∧
    (∀ e, c.cache.lookup key = some e →
      (c.isExpired now key = true ↔ (e.expiredIn ≠ 0 ∧ e.expiredIn < now))) ∧
    (∀ (v : Option V) (now0 : Nat), (c.set now0 key v 0).isExpired now key = false) := by
  refine ⟨?_, ?_, ?_⟩
  · intro v
    unfold ApiCache.get
    cases hl : c.cache.lookup key with
    | none => simp
    | some e =>
        cases hex : c.isExpired now key with
        | false => simp [hex]
        | true =>
            cases hp : c.isInProgress key with
            | false => simp [hex, hp]
            | true => simp [hex, hp]
  · intro e hl
    unfold ApiCache.isExpired
    rw [hl]
    simp [Bool.and_eq_true, bne_iff_ne]
  · intro v now0
    unfold ApiCache.isExpired ApiCache.set
    simp [lookup_setAssoc_self]

theorem cache_get_witness :
    (ApiCache.mk [("k", CacheEntry.mk (some (7 : Nat)) 1)] ["k"]).get 1000 "k" = some 7 :=
  ((cache_get_characterization _ 1000 "k").1 7).mpr
    ⟨CacheEntry.mk (some 7) 1, by decide, rfl, Or.inr (by decide)⟩

/-! ## C10: Api.get cache policy -/

/-- C10: every descriptor stored by `Api.get` lands in the cache under the
key `url[#accessToken]` with expiry `now + 5000` milliseconds; the stored
expiry is independent of any max-age directive in the response metadata; and
an `Api.get` that finds a present, non-expired entry completes with it
immediately — the producer (request handler) is not invoked. -/
theorem api_get_cache_policy
    (c : ApiCache ApiDescriptor) (now : Nat) (url : String) (tok : Option String)
    (maxAge : Option Nat) (err : Option String) (v : Option ApiDescriptor) :
    ((apiGetComplete c now url tok maxAge err v).1.cache.lookup (apiCacheKey url tok) =
      some (CacheEntry.mk v (now + 5 * 1000))) ∧
    (∀ maxAge2, apiGetComplete c now url tok maxAge err v =
      apiGetComplete c now url tok maxAge2 err v) ∧
    (∀ (e : CacheEntry ApiDescriptor) (d : ApiDescriptor),
      c.cache.lookup (apiCacheKey url tok) = some e → e.data = some d →
      c.isExpired now (apiCacheKey url tok) = false →
      apiGetStart c now url tok = (c, StartResult.hit d)) := by
  refine ⟨?_, fun _ => rfl, ?_⟩
  · unfold apiGetComplete ApiCache.getOrSetComplete ApiCache.set apiGetTtl
    simp [lookup_setAssoc_self]
  · intro e d hl hd hex
    have hget : c.get now (apiCacheKey url tok) = some d := by
      unfold ApiCache.get
      rw [hl]
      simp [hex, hd]
    unfold apiGetStart ApiCache.getOrSetStart
    rw [hget]

theorem api_get_cache_policy_witness :
    apiGetStart (ApiCache.mk [("http://x/api", CacheEntry.mk (some demoDescriptor) 2000)] [])
        1000 "http://x/api" none =
      (ApiCache.mk [("http://x/api", CacheEntry.mk (some demoDescriptor) 2000)] [],
       StartResult.hit demoDescriptor) :=
  (api_get_cache_policy _ 1000 "http://x/api" none none none none).2.2
    (CacheEntry.mk (some demoDescriptor) 2000) demoDescriptor
    (by decide) rfl (by decide)

/-! ## C3: master ref invariant -/

theorem filter_masters_map (l : List RawRef) :
    (l.map mkRef).filter (fun r => r.isMaster == true) =
      (l.filter (fun r => r.isMasterRef)).map mkRef := by
  induction l with
  | nil => rfl
  | cons a t ih =>
      simp only [beq_true] at ih ⊢
      cases h : a.isMasterRef <;> simp [List.filter_cons, mkRef, h, ih]

/-- C3 counterexample: a descriptor with TWO refs marked master parses
successfully (the code only rejects the zero-master case and silently takes
the first master), refuting "parsing fails otherwise, i.e. also for more
than one". -/
theorem parse_two_masters_succeeds :
    (twoMasterData.refs.filter (fun r => r.isMasterRef)).length = 2 ∧
    parse none twoMasterData = Except.ok twoMasterDescriptor :=
  ⟨by decide, rfl⟩

/-- C3 (amended): `parse` fails — with the thrown string `"No master ref."` —
exactly when NO ref has `isMaster = true`; whenever at least one master ref
exists it succeeds, the descriptor's master is the FIRST such ref, and
`master()` returns that ref's id (its `ref` field).  In particular a
descriptor with exactly one master ref parses and `master()` equals that
ref's id. -/
theorem parse_master_ref (tok : Option String) (d : ApiData) :
    (parse tok d = Except.error "No master ref." ↔
      d.refs.filter (fun r => r.isMasterRef) = []) ∧
    (∀ desc, parse tok d = Except.ok desc →
      ∃ r, (d.refs.filter (fun r => r.isMasterRef)).head? = some r ∧
        desc.master = mkRef r ∧ apiMaster desc = r.ref) := by
  constructor
  · simp only [parse, filter_masters_map]
    cases hm : d.refs.filter (fun r => r.isMasterRef) with
    | nil => simp
    | cons r t => simp
  · intro desc h
    simp only [parse, filter_masters_map] at h
    cases hm : d.refs.filter (fun r => r.isMasterRef) with
    | nil => rw [hm] at h; simp at h
    | cons r t =>
        rw [hm] at h
        simp only [List.map_cons, Except.ok.injEq] at h
        refine ⟨r, rfl, ?_, ?_⟩
        · rw [← h]
        · rw [← h]; rfl

theorem parse_master_ref_witness :
    ∃ r, (oneMasterData.refs.filter (fun r => r.isMasterRef)).head? = some r ∧
      oneMasterDescriptor.master = mkRef r ∧ apiMaster oneMasterDescriptor = r.ref :=
  (parse_master_ref none oneMasterData).2 oneMasterDescriptor rfl

/-! ## C4: query compiler -/

theorem encodeArg_eq_spec (a : QueryArg) : encodeQueryArg a = specArgLiteral a := by
  cases a <;> rfl

/-- C4: the query compiler agrees, on every predicate list, with the
specification-side compiler written from the spec's three rules (path
literal rule, per-argument literal encoding, predicate format and outer
wrapping), and reproduces the spec's two round-trip examples. -/
theorem query_compiler_spec :
    (∀ ps, compilePredicates ps = specCompile ps) ∧
    compilePredicates [Predicate.mk "at" "document.id" [QueryArg.str "X"]] =
      "[[:d = at(document.id, \"X\")]]" ∧
    compilePredicates [Predicate.mk "any" "my.article.tag" [QueryArg.arrOf ["a", "b"]]] =
      "[[:d = any(my.article.tag, [\"a\",\"b\"])]]" := by
  refine ⟨?_, by decide, by decide⟩
  intro ps
  unfold compilePredicates specCompile
  congr 2

/-! ## C7: unknown search fields -/

/-- C7: `set(field, value)` fails — with the error `"Unknown field " + field`
— exactly when `field` is not declared on the bound form, and this is the
only error `set` can produce.  The error is produced by the `set` call
itself (synchronously, at call time); `submit` performs no field validation. -/
theorem set_unknown_field_iff (sf : SearchForm) (field : String) (value : Option Value) :
    (sf.set field value = Except.error ("Unknown field " ++ field) ↔
      sf.form.fields.lookup field = none) ∧
    (∀ e, sf.set field value = Except.error e → e = "Unknown field " ++ field) := by
  unfold SearchForm.set
  cases hl : sf.form.fields.lookup field with
  | none => simp
  | some fieldDesc => cases hm : fieldDesc.multiple <;> simp [hm]

theorem set_unknown_field_witness :
    (SearchForm.init everythingForm).set "nonexistent" (some (Value.str "x")) =
      Except.error "Unknown field nonexistent" :=
  ((set_unknown_field_iff (SearchForm.init everythingForm) "nonexistent"
      (some (Value.str "x"))).1).mpr (by decide)

/-! ## C8: set-value normalization -/

/-- C8 counterexample: on a field declared `multiple`, a value of `""` does
NOT clear the field.  After `set("tags", "a")` the field holds `["a"]`; a
subsequent `set("tags", "")` normalizes the value to null, pushes nothing,
and re-stores the accumulated list unchanged — the field still holds
`["a"]`, refuting "normalized to clearing the field". -/
theorem set_empty_on_multiple_not_cleared :
    (SearchForm.init multipleFieldForm).set "tags" (some (Value.str "a")) =
      Except.ok (SearchForm.mk multipleFieldForm [("tags", DataVal.arr [Value.str "a"])]) ∧
    (SearchForm.mk multipleFieldForm [("tags", DataVal.arr [Value.str "a"])]).set "tags"
        (some (Value.str "")) =
      Except.ok (SearchForm.mk multipleFieldForm [("tags", DataVal.arr [Value.str "a"])]) :=
  ⟨rfl, rfl⟩

/-- C8 (amended): on a declared field, a value of `""` or absent is
normalized to null; on a NON-multiple field this clears the field (null is
stored); on a `multiple` field the call leaves the accumulated list
unchanged (nothing is pushed).  A truthy value is appended to the list on a
multiple field and replaces the stored value on a non-multiple field. -/
theorem searchform_set_semantics (sf : SearchForm) (field : String)
    (fieldDesc : FieldSpec) (hl : sf.form.fields.lookup field = some fieldDesc) :
    (∀ value, (value = none ∨ value = some (Value.str "")) →
      sf.set field value = Except.ok
        { sf with
          data := setAssoc field
            (if fieldDesc.multiple then DataVal.arr (sf.storedValues field)
             else DataVal.nullv)
            sf.data }) ∧
    (∀ v : Value, v.truthy = true →
      sf.set field (some v) = Except.ok
        { sf with
          data := setAssoc field
            (if fieldDesc.multiple then DataVal.arr (sf.storedValues field ++ [v])
             else DataVal.arr [v])
            sf.data }) := by
  constructor
  · rintro value (rfl | rfl) <;>
      · unfold SearchForm.set
        rw [hl]
        cases hm : fieldDesc.multiple <;> simp [hm]
  · intro v hv
    unfold SearchForm.set
    rw [hl]
    cases v with
    | str s =>
        have hs : (s == "") = false := by
          cases h : s == "" with
          | false => rfl
          | true =>
              have hse : s = "" := eq_of_beq h
              rw [hse] at hv
              simp [Value.truthy] at hv
        cases hm : fieldDesc.multiple <;> simp [hm, hs, hv]
    | num n =>
        cases hm : fieldDesc.multiple <;> simp [hm, hv]

theorem searchform_set_witness :
    (SearchForm.init multipleFieldForm).set "tags" (some (Value.str "b")) =
      Except.ok (SearchForm.mk multipleFieldForm [("tags", DataVal.arr [Value.str "b"])]) := by
  have h := (searchform_set_semantics (SearchForm.init multipleFieldForm) "tags"
      (FieldSpec.mk "String" true none) (by decide)).2 (Value.str "b") (by decide)
  exact h.trans (by decide)

/-! ## C9: span filtering -/

/-- C9: during document parsing a rich-text span annotation survives exactly
when its start offset is strictly less than its end offset; concretely, of
the spans `start=5,end=5` and `start=2,end=5` only the latter is retained. -/
theorem span_filter_strict :
    (∀ (b : Block) (s : Span), s ∈ (parseBlock b).spans ↔
      s ∈ b.spans ∧ s.start < s.stop) ∧
    (parseBlock (Block.mk "paragraph" (some "Hello")
        [Span.mk 5 5 "em", Span.mk 2 5 "em"])).spans = [Span.mk 2 5 "em"] := by
  constructor
  · intro b s
    simp [parseBlock, List.mem_filter]
  · decide

/-! ## C6: typed accessors -/

/-- C6 counterexample: `getBoolean` performs no discriminator check; on a
Number fragment with value 5 it evaluates `(5).toLowerCase()` and throws a
TypeError, refuting "each typed accessor ... never throws on type
mismatch". -/
theorem getBoolean_throws_on_number :
    numberDoc.getBoolean "post.n" = Except.error "TypeError" := rfl

/-- C6 (amended): every listed typed accessor except `getBoolean` checks the
fragment's type discriminator and returns the typed value on a match and an
absence signal (none) otherwise, without throwing — with the proviso that
`getImage` also passes a StructuredText fragment through unchanged.
`getBoolean` performs NO discriminator check: it throws a TypeError exactly
when the fragment is absent or its `value` is truthy and not a string.  The
spec's example holds: a Text fragment `"Hello"` yields `"Hello"` from
`getText` and `null` from `getNumber`. -/
theorem typed_accessors_checked :
    (helloDoc.getText "post.title" none = some "Hello" ∧
     helloDoc.getNumber "post.title" = none) ∧
    ∀ (d : Doc) (name : String),
      ((∀ n, d.get name = some (Fragment.number n) → d.getNumber name = some n) ∧
       (∀ f, d.get name = some f → f.isNumber = false → d.getNumber name = none) ∧
       (d.get name = none → d.getNumber name = none)) ∧
      ((∀ s, d.get name = some (Fragment.color s) → d.getColor name = some s) ∧
       (∀ f, d.get name = some f → f.isColor = false → d.getColor name = none) ∧
       (d.get name = none → d.getColor name = none)) ∧
      ((∀ t, d.get name = some (Fragment.date t) → d.getDate name = some t) ∧
       (∀ f, d.get name = some f → f.isDate = false → d.getDate name = none) ∧
       (d.get name = none → d.getDate name = none)) ∧
      ((∀ f, d.get name = some f → f.isStructuredText = true →
          d.getStructuredText name = some f) ∧
       (∀ f, d.get name = some f → f.isStructuredText = false →
          d.getStructuredText name = none) ∧
       (d.get name = none → d.getStructuredText name = none)) ∧
      ((∀ f, d.get name = some f → f.isLink = true → d.getLink name = some f) ∧
       (∀ f, d.get name = some f → f.isLink = false → d.getLink name = none) ∧
       (d.get name = none → d.getLink name = none)) ∧
      ((∀ f, d.get name = some f → f.isGeoPoint = true → d.getGeoPoint name = some f) ∧
       (∀ f, d.get name = some f → f.isGeoPoint = false → d.getGeoPoint name = none) ∧
       (d.get name = none → d.getGeoPoint name = none)) ∧
      ((∀ f, d.get name = some f → f.isGroup = true → d.getGroup name = some f) ∧
       (∀ f, d.get name = some f → f.isGroup = false → d.getGroup name = none) ∧
       (d.get name = none → d.getGroup name = none)) ∧
      ((∀ f, d.get name = some f → f.isImageOrSt = true → d.getImage name = some f) ∧
       (∀ f, d.get name = some f → f.isImageOrSt = false → d.getImage name = none) ∧
       (d.get name = none → d.getImage name = none)) ∧
      ((∀ f after, d.get name = some f → f.textKind = false →
          d.getText name after = none) ∧
       (∀ after, d.get name = none → d.getText name after = none)) ∧
      (d.getBoolean name = Except.error "TypeError" ↔
        (d.get name = none ∨ ∃ f, d.get name = some f ∧
          f.jsValue.truthy = true ∧ f.jsValue.isString = false)) := by
  refine ⟨⟨by decide, by decide⟩, ?_⟩
  intro d name
  refine ⟨⟨?_, ?_, ?_⟩, ⟨?_, ?_, ?_⟩, ⟨?_, ?_, ?_⟩, ⟨?_, ?_, ?_⟩, ⟨?_, ?_, ?_⟩,
    ⟨?_, ?_, ?_⟩, ⟨?_, ?_, ?_⟩, ⟨?_, ?_, ?_⟩, ⟨?_, ?_⟩, ?_⟩
  case _ => intro n hg; unfold Doc.getNumber; rw [hg]
  case _ =>
      intro f hg hc
      unfold Doc.getNumber; rw [hg]
      cases f <;> simp_all [Fragment.isNumber]
  case _ => intro hg; unfold Doc.getNumber; rw [hg]
  case _ => intro s hg; unfold Doc.getColor; rw [hg]
  case _ =>
      intro f hg hc
      unfold Doc.getColor; rw [hg]
      cases f <;> simp_all [Fragment.isColor]
  case _ => intro hg; unfold Doc.getColor; rw [hg]
  case _ => intro t hg; unfold Doc.getDate; rw [hg]
  case _ =>
      intro f hg hc
      unfold Doc.getDate; rw [hg]
      cases f <;> simp_all [Fragment.isDate]
  case _ => intro hg; unfold Doc.getDate; rw [hg]
  case _ =>
      intro f hg hc
      unfold Doc.getStructuredText; rw [hg]
      cases f <;> simp_all [Fragment.isStructuredText]
  case _ =>
      intro f hg hc
      unfold Doc.getStructuredText; rw [hg]
      cases f <;> simp_all [Fragment.isStructuredText]
  case _ => intro hg; unfold Doc.getStructuredText; rw [hg]
  case _ =>
      intro f hg hc
      unfold Doc.getLink; rw [hg]
      cases f <;> simp_all [Fragment.isLink]
  case _ =>
      intro f hg hc
      unfold Doc.getLink; rw [hg]
      cases f <;> simp_all [Fragment.isLink]
  case _ => intro hg; unfold Doc.getLink; rw [hg]
  case _ =>
      intro f hg hc
      unfold Doc.getGeoPoint; rw [hg]
      cases f <;> simp_all [Fragment.isGeoPoint]
  case _ =>
      intro f hg hc
      unfold Doc.getGeoPoint; rw [hg]
      cases f <;> simp_all [Fragment.isGeoPoint]
  case _ => intro hg; unfold Doc.getGeoPoint; rw [hg]
  case _ =>
      intro f hg hc
      unfold Doc.getGroup; rw [hg]
      cases f <;> simp_all [Fragment.isGroup]
  case _ =>
      intro f hg hc
      unfold Doc.getGroup; rw [hg]
      cases f <;> simp_all [Fragment.isGroup]
  case _ => intro hg; unfold Doc.getGroup; rw [hg]
  case _ =>
      intro f hg hc
      unfold Doc.getImage; rw [hg]
      cases f <;> simp_all [Fragment.isImageOrSt]
  case _ =>
      intro f hg hc
      unfold Doc.getImage; rw [hg]
      cases f <;> simp_all [Fragment.isImageOrSt]
  case _ => intro hg; unfold Doc.getImage; rw [hg]
  case _ =>
      intro f after hg hc
      unfold Doc.getText; rw [hg]
      cases f <;> simp_all [Fragment.textKind]
  case _ => intro after hg; unfold Doc.getText; rw [hg]
  case _ =>
      unfold Doc.getBoolean
      cases hg : d.get name with
      | none => simp
      | some f =>
          cases f <;>
            first
              | (rename_i s
                 by_cases hs : s = "" <;>
                   simp [hs, Fragment.jsValue, JsVal.truthy, JsVal.isString,
                     JsVal.toLowerCase])
              | (rename_i n
                 by_cases hn : n = (0 : Int) <;>
                   simp [hn, Fragment.jsValue, JsVal.truthy, JsVal.isString,
                     JsVal.toLowerCase])
              | simp [Fragment.jsValue, JsVal.truthy, JsVal.isString, JsVal.toLowerCase]

theorem typed_accessors_witness : helloDoc.getNumber "post.title" = none :=
  ((typed_accessors_checked.2 helloDoc "post.title").1.2.1 (Fragment.text "Hello")
    (by decide) (by decide))

end PrismicKit
